import Mathlib

/-!
Verification of the client-side video-processing synchronization engine
(`gist-ai-editor/lib/hooks/use-video-processing.ts` and the WebSocket part of
the API client) against its natural-language specification.

The hook's React state is embedded as an explicit record `HookState`; each
callback of the hook (`handleWebSocketMessage`, `pollStatus`, `submitVideo`,
`reset`) and each mount-time routine (`clearStorageIfNeeded`, the validation
prefix of `restoreState`, the write-through persistence effect) becomes a pure
state-transformer.  Asynchronous artifact requests (`getVideoIdeas`,
`fetchVideoMetadata`) are instrumented as counters on the state: a counter
increment records that the request was issued.  JS numbers that are integral in
this system (percent 0–100, millisecond timestamps, ranks) are `Int`.
-/

namespace GistAI

/-- JavaScript `a || b` on an optional string: `undefined`/`null` and the empty
string are falsy and fall through to the default. -/
def jsOr (o : Option String) (d : String) : String :=
  match o with
  | some s => if s = "" then d else s
  | none => d

/-- JS truthiness of an optional string (`null`/`undefined`/`""` are falsy). -/
def jsTruthy (o : Option String) : Bool :=
  match o with
  | some s => s ≠ ""
  | none => false

/-- `TimeRange` from `lib/api/client.ts` (confidence is a fraction, kept
exact as a rational). -/
structure TimeRange where
  start : Rat
  stop : Rat
  confidence : Rat
deriving DecidableEq, Repr

/-- `Idea` from `lib/api/client.ts`. -/
structure Idea where
  id : String
  rank : Int
  title : String
  reason : String
  strength : String
  viral_potential : Option String
  highlights : List String
  time_ranges : List TimeRange
deriving DecidableEq, Repr

/-- `VideoResponse` from `lib/api/client.ts` (result of `submitYouTubeUrl`). -/
structure VideoResponse where
  video_id : String
  status : String
  message : String
deriving DecidableEq, Repr

/-- `StatusResponse` from `lib/api/client.ts` (result of `getVideoStatus`). -/
structure StatusResponse where
  video_id : String
  status : String
  progress : Int
  current_stage : String
  message : String
  estimated_completion : Option String
deriving DecidableEq, Repr

/-- `PersistedState` from `use-video-processing.ts` (the localStorage record).
`timestamp` is `Date.now()` in milliseconds. -/
structure PersistedState where
  videoId : String
  videoUrl : String
  status : String
  progress : Int
  currentStage : String
  projectId : Option String
  timestamp : Int
deriving DecidableEq, Repr

/-- A WebSocket message as consumed by `handleWebSocketMessage`: a `type` tag
plus the optional payload fields the handler reads (`messageData.stage`,
`messageData.progress`, `messageData.message`, `messageData.current_stage`,
`messageData.next_stage`). A missing field is `none` (JS `undefined`). -/
structure WsMsg where
  type : String
  stage : Option String := none
  progress : Option Int := none
  message : Option String := none
  current_stage : Option String := none
  next_stage : Option String := none
deriving DecidableEq, Repr

/-- The state owned by `useVideoProcessing`: the eleven `useState` fields, the
two resource refs (`wsRef` live?, `pollingIntervalRef` live?), the localStorage
record under the current scope key, and two instrumentation counters recording
how many times the artifact requests `getVideoIdeas` and `fetchVideoMetadata`
were issued (the hook itself holds no such counters; they record side effects). -/
structure HookState where
  videoId : Option String
  videoUrl : Option String
  videoStreamUrl : Option String
  videoDuration : Option Int
  videoTitle : Option String
  status : Option String
  progress : Int
  currentStage : Option String
  message : Option String
  ideas : List Idea
  error : Option String
  wsOpen : Bool
  pollingActive : Bool
  storage : Option PersistedState
  ideasFetchCount : Nat
  metaFetchCount : Nat
deriving DecidableEq, Repr

/-- The hook's initial state: every `useState` initializer, both refs null,
no persisted record, no artifact request issued yet. -/
def initialState : HookState :=
  { videoId := none, videoUrl := none, videoStreamUrl := none,
    videoDuration := none, videoTitle := none, status := none, progress := 0,
    currentStage := none, message := none, ideas := [], error := none,
    wsOpen := false, pollingActive := false, storage := none,
    ideasFetchCount := 0, metaFetchCount := 0 }

/-- `handleWebSocketMessage` (use-video-processing.ts lines 274–326).
Dispatch on `messageData.type`:
* `progress`: `setStatus(messageData.stage)`, `setProgress(messageData.progress || 0)`,
  `setCurrentStage(messageData.stage)`, `setMessage(messageData.message)`;
* `video_ready`: `fetchVideoMetadata` when a video id is known, then
  `setMessage(messageData.message || 'Video ready for playback')`;
* `stage_complete`: `setCurrentStage(messageData.next_stage)`,
  `setStatus(messageData.next_stage)`;
* `complete`: status `complete`, progress 100, message, currentStage `complete`,
  and when a video id is known issue `getVideoIdeas` and `fetchVideoMetadata`;
* `error`: status `failed`, `setError(messageData.message || 'Processing failed')`,
  `setMessage(messageData.message)`;
* any other type: no branch, state unchanged.
The handler never closes the WebSocket and never clears the polling interval. -/
def handleWebSocketMessage (s : HookState) (m : WsMsg) : HookState :=
  if m.type = "progress" then
    { s with status := m.stage, progress := m.progress.getD 0,
             currentStage := m.stage, message := m.message }
  else if m.type = "video_ready" then
    { s with metaFetchCount :=
               if s.videoId.isSome then s.metaFetchCount + 1 else s.metaFetchCount,
             message := some (jsOr m.message "Video ready for playback") }
  else if m.type = "stage_complete" then
    { s with currentStage := m.next_stage, status := m.next_stage }
  else if m.type = "complete" then
    { s with status := some "complete", progress := 100, message := m.message,
             currentStage := some "complete",
             ideasFetchCount :=
               if s.videoId.isSome then s.ideasFetchCount + 1 else s.ideasFetchCount,
             metaFetchCount :=
               if s.videoId.isSome then s.metaFetchCount + 1 else s.metaFetchCount }
  else if m.type = "error" then
    { s with status := some "failed",
             error := some (jsOr m.message "Processing failed"),
             message := m.message }
  else
    s

/-- One successful tick of `pollStatus` (use-video-processing.ts lines 329–370)
applied to a status response: set status/progress/currentStage/message from the
response; when `current_stage` is `TRANSCRIBING` and no stream URL is known yet,
issue an early `fetchVideoMetadata`; when status is `complete`, issue
`getVideoIdeas` and `fetchVideoMetadata` and clear the polling interval; when
status is `failed`, set the error and clear the polling interval.  The poller
never closes the WebSocket. -/
def pollStatusOk (s : HookState) (r : StatusResponse) : HookState :=
  let s1 := { s with status := some r.status, progress := r.progress,
                     currentStage := some r.current_stage,
                     message := some r.message }
  let s2 := if r.current_stage = "TRANSCRIBING" ∧ s1.videoStreamUrl = none then
              { s1 with metaFetchCount := s1.metaFetchCount + 1 }
            else s1
  if r.status = "complete" then
    { s2 with ideasFetchCount := s2.ideasFetchCount + 1,
              metaFetchCount := s2.metaFetchCount + 1,
              pollingActive := false }
  else if r.status = "failed" then
    { s2 with error := some "Processing failed", pollingActive := false }
  else s2

/-- A failed `pollStatus` tick: the catch block only logs; nothing changes. -/
def pollStatusErr (s : HookState) : HookState := s

/-- One delivery from either channel: a pushed WebSocket message, a successful
poll response, or a failed poll. -/
inductive Delivery where
  | ws (m : WsMsg)
  | poll (r : StatusResponse)
  | pollFail
deriving DecidableEq, Repr

/-- Apply one delivery (either channel) to the hook state. -/
def applyDelivery (s : HookState) (d : Delivery) : HookState :=
  match d with
  | .ws m => handleWebSocketMessage s m
  | .poll r => pollStatusOk s r
  | .pollFail => pollStatusErr s

/-- Apply a whole interleaving of deliveries in arrival order. -/
def applyDeliveries (s : HookState) (ds : List Delivery) : HookState :=
  ds.foldl applyDelivery s

/-- The stage token a delivery writes into `currentStage`, when it writes one
taken from the payload: a `progress` message carries `stage`, a
`stage_complete` message carries `next_stage`, a poll response carries
`current_stage`. -/
def carriedStage (d : Delivery) : Option String :=
  match d with
  | .ws m =>
      if m.type = "progress" then m.stage
      else if m.type = "stage_complete" then m.next_stage
      else none
  | .poll r => some r.current_stage
  | .pollFail => none

/-- The percent value a delivery writes into `progress`, when it writes one:
a `progress` message writes `messageData.progress || 0`, a `complete` message
writes 100, a poll response writes its `progress` field. -/
def carriedPercent (d : Delivery) : Option Int :=
  match d with
  | .ws m =>
      if m.type = "progress" then some (m.progress.getD 0)
      else if m.type = "complete" then some 100
      else none
  | .poll r => some r.progress
  | .pollFail => none

/-- The spec's canonical stage ordering (§4.1). -/
def canonicalStages : List String :=
  ["PENDING", "INGESTING", "TRANSCRIBING", "UNDERSTANDING", "GROUPING",
   "RANKING", "COMPLETE"]

/-- Canonical position of a stage token; unknown tokens sit past the end. -/
def stagePos (st : String) : Nat := canonicalStages.indexOf st

/-- `submitVideo` (use-video-processing.ts lines 373–413).  `result` is the
outcome of the `submitYouTubeUrl` request; `wsOk` says whether
`connectWebSocket` returned without throwing.  On success the WebSocket is
connected (on a throw `wsRef` keeps its previous value) and the polling
interval is started; on failure the catch block sets
`error := err.message || 'Failed to submit video'` and status `failed`, and
neither channel is touched. -/
def submitVideo (s : HookState) (url : String) (_mode : String)
    (result : Except String VideoResponse) (wsOk : Bool) : HookState :=
  let s1 := { s with error := none, progress := 0, ideas := [],
                     videoStreamUrl := none, videoDuration := none,
                     videoTitle := none, videoUrl := some url,
                     status := some "PENDING", currentStage := some "PENDING",
                     message := some "Submitting video..." }
  match result with
  | .ok r =>
      { s1 with videoId := some r.video_id, status := some r.status,
                message := some r.message,
                wsOpen := if wsOk then true else s1.wsOpen,
                pollingActive := true }
  | .error e =>
      { s1 with error := some (jsOr (some e) "Failed to submit video"),
                status := some "failed" }

/-- `reset` (use-video-processing.ts lines 416–445): null every state field,
close the WebSocket if open, clear the polling interval if set, and remove the
persisted record for the current scope key.  The instrumentation counters are
not hook state and are untouched. -/
def reset (s : HookState) : HookState :=
  { videoId := none, videoUrl := none, videoStreamUrl := none,
    videoDuration := none, videoTitle := none, status := none, progress := 0,
    currentStage := none, message := none, ideas := [], error := none,
    wsOpen := false, pollingActive := false, storage := none,
    ideasFetchCount := s.ideasFetchCount, metaFetchCount := s.metaFetchCount }

/-- `clearStorageIfNeeded` (use-video-processing.ts lines 88–108): at mount,
if a record is stored it is removed when its status is the uppercase terminal
token `COMPLETE` or `FAILED`, and (independently) when its `projectId` differs
from the current one.  Returns the storage contents afterwards. -/
def clearStorageIfNeeded (storage : Option PersistedState)
    (projectId : Option String) : Option PersistedState :=
  match storage with
  | none => none
  | some d =>
      if d.status = "COMPLETE" ∨ d.status = "FAILED" then none
      else if d.projectId ≠ projectId then none
      else some d

/-- The load/validate prefix of `restoreState` (use-video-processing.ts lines
111–135): read the stored record; if none, no resumption.  Otherwise remove it
and give up when it is over 24 hours old or its `projectId` differs from the
current one; otherwise keep it in storage and use it as the resumption
candidate (the hook then restores its fields and reconciles with the server,
which is outside this decision).  Returns (storage afterwards, candidate). -/
def restoreStateValidate (storage : Option PersistedState)
    (projectId : Option String) (now : Int) :
    Option PersistedState × Option PersistedState :=
  match storage with
  | none => (none, none)
  | some st =>
      if now - st.timestamp > 24 * 60 * 60 * 1000 ∨ st.projectId ≠ projectId then
        (none, none)
      else (some st, some st)

/-- The whole mount-time load path for the persisted record: the immediate
`clearStorageIfNeeded()` call followed by `restoreState`'s validation. -/
def mountLoad (storage : Option PersistedState) (projectId : Option String)
    (now : Int) : Option PersistedState × Option PersistedState :=
  restoreStateValidate (clearStorageIfNeeded storage projectId) projectId now

/-- `isProcessing` (use-video-processing.ts line 63):
`status !== null && status !== 'complete' && status !== 'failed'`. -/
def isProcessing (status : Option String) : Bool :=
  match status with
  | none => false
  | some st => st ≠ "complete" ∧ st ≠ "failed"

/-- `isComplete` (use-video-processing.ts line 64): `status === 'complete'`. -/
def isComplete (status : Option String) : Bool :=
  status = some "complete"

/-- The write-through persistence effect (use-video-processing.ts lines 67–84):
whenever `videoId && status && status !== 'complete' && status !== 'failed'`
(JS truthiness), write the record under the current scope key with
`timestamp := Date.now()`; else if status is the lowercase `complete` or
`failed`, remove the record; otherwise leave storage alone. -/
def persistEffect (videoId videoUrl : Option String) (status : Option String)
    (progress : Int) (currentStage : Option String) (projectId : Option String)
    (now : Int) (storage : Option PersistedState) : Option PersistedState :=
  if jsTruthy videoId ∧ jsTruthy status ∧ status ≠ some "complete" ∧
      status ≠ some "failed" then
    some { videoId := videoId.getD "", videoUrl := videoUrl.getD "",
           status := status.getD "", progress := progress,
           currentStage := currentStage.getD "", projectId := projectId,
           timestamp := now }
  else if status = some "complete" ∨ status = some "failed" then none
  else storage

/-- A concrete post-submission state: the hook right after a successful
`submitVideo` (job id known, WebSocket connected, polling started), used to
exercise delivery interleavings on concrete inputs. -/
def submittedState : HookState :=
  submitVideo initialState "https://video/x" "groq"
    (.ok { video_id := "v1", status := "PENDING", message := "queued" }) true

/-- A concrete decoder standing in for `JSON.parse`: the frame "good" decodes
to a progress message, anything else fails to decode. -/
def sampleDecode (frame : String) : Option WsMsg :=
  if frame = "good" then some { type := "progress" } else none

/-- The `onmessage` callback installed by `connectWebSocket`
(api client, `connectWebSocket`): `JSON.parse` the frame inside a try; on
success invoke the handler on the decoded message, on failure only log.  The
listener state is (messages delivered to the handler so far, connection open?);
`decode` stands for `JSON.parse` (external library code). -/
def onMessageStep (decode : String → Option WsMsg)
    (st : List WsMsg × Bool) (frame : String) : List WsMsg × Bool :=
  match decode frame with
  | some m => (st.1 ++ [m], st.2)
  | none => st

/-- Feed a sequence of raw frames through the listener, starting from a fresh
open connection with no message delivered yet. -/
def processFrames (decode : String → Option WsMsg) (frames : List String) :
    List WsMsg × Bool :=
  frames.foldl (onMessageStep decode) ([], true)

/-! ## Theorems -/

/-- Helper: a delivery that carries a stage token writes exactly that token
into `currentStage`, whatever the previous state was. -/
theorem applyDelivery_currentStage (s : HookState) (d : Delivery) (st : String)
    (h : carriedStage d = some st) :
    (applyDelivery s d).currentStage = some st := by
  cases d with
  | ws m =>
      simp only [carriedStage] at h
      simp only [applyDelivery, handleWebSocketMessage]
      split_ifs at h ⊢ <;> simp_all
  | poll r =>
      simp only [carriedStage, Option.some.injEq] at h
      simp only [applyDelivery, pollStatusOk]
      split_ifs <;> simp [h]
  | pollFail => simp [carriedStage] at h

/-- Helper: a delivery that carries a percent value writes exactly that value
into `progress`, whatever the previous state was. -/
theorem applyDelivery_progress (s : HookState) (d : Delivery) (p : Int)
    (h : carriedPercent d = some p) :
    (applyDelivery s d).progress = p := by
  cases d with
  | ws m =>
      simp only [carriedPercent] at h
      simp only [applyDelivery, handleWebSocketMessage]
      split_ifs at h ⊢ <;> simp_all
  | poll r =>
      simp only [carriedPercent, Option.some.injEq] at h
      simp only [applyDelivery, pollStatusOk]
      split_ifs <;> simp [h]
  | pollFail => simp [carriedPercent] at h

/-- **C1** (counterexample). The claim says the displayed stage never moves to
an earlier canonical position under any interleaving.  But from a freshly
submitted job, a `progress` delivery carrying TRANSCRIBING followed by a
`progress` delivery carrying INGESTING leaves the display on INGESTING, an
earlier canonical position: the handler has no regression guard. -/
theorem c1_counterexample :
    (applyDeliveries submittedState
        [Delivery.ws { type := "progress", stage := some "TRANSCRIBING",
                       progress := some 40 }]).currentStage
        = some "TRANSCRIBING" ∧
    (applyDeliveries submittedState
        [Delivery.ws { type := "progress", stage := some "TRANSCRIBING",
                       progress := some 40 },
         Delivery.ws { type := "progress", stage := some "INGESTING",
                       progress := some 10 }]).currentStage
        = some "INGESTING" ∧
    stagePos "INGESTING" < stagePos "TRANSCRIBING" := by
  refine ⟨rfl, rfl, by decide⟩

/-- **C1** (amended). The displayed stage is last-write-wins: each
`progress`/`stage_complete`/poll delivery sets `currentStage` to exactly the
stage token it carries, regardless of the previous state; consequently the
display never moves to an earlier canonical position precisely when successive
deliveries carry canonically non-decreasing stages, and a delivery carrying an
earlier stage does regress the display. -/
theorem c1_stage_follows_last_delivery (s : HookState) (d1 d2 : Delivery)
    (st1 st2 : String) (h1 : carriedStage d1 = some st1)
    (h2 : carriedStage d2 = some st2) :
    (applyDeliveries s [d1]).currentStage = some st1 ∧
    (applyDeliveries s [d1, d2]).currentStage = some st2 ∧
    (stagePos st1 ≤ stagePos st2 →
      stagePos (((applyDeliveries s [d1]).currentStage).getD "") ≤
        stagePos (((applyDeliveries s [d1, d2]).currentStage).getD "")) := by
  have e1 : applyDeliveries s [d1] = applyDelivery s d1 := rfl
  have e2 : applyDeliveries s [d1, d2] =
      applyDelivery (applyDelivery s d1) d2 := rfl
  rw [e1, e2, applyDelivery_currentStage s d1 st1 h1,
      applyDelivery_currentStage (applyDelivery s d1) d2 st2 h2]
  exact ⟨rfl, rfl, fun hle => by simpa using hle⟩

/-- Witness for C1: an INGESTING then TRANSCRIBING push sequence (canonically
ordered) leaves the display on TRANSCRIBING. -/
theorem c1_witness :
    (applyDeliveries initialState
        [Delivery.ws { type := "progress", stage := some "INGESTING" },
         Delivery.ws { type := "progress", stage := some "TRANSCRIBING" }]).currentStage
      = some "TRANSCRIBING" :=
  (c1_stage_follows_last_delivery initialState
      (Delivery.ws { type := "progress", stage := some "INGESTING" })
      (Delivery.ws { type := "progress", stage := some "TRANSCRIBING" })
      "INGESTING" "TRANSCRIBING" (by decide) (by decide)).2.1

/-- **C4** (counterexample). The claim says the displayed percent never
decreases under any interleaving.  But a `progress` delivery at 40 followed by
a `progress` delivery at 10 leaves the display at 10: the handler applies the
payload percent verbatim with no monotonicity guard. -/
theorem c4_counterexample :
    (applyDeliveries submittedState
        [Delivery.ws { type := "progress", stage := some "TRANSCRIBING",
                       progress := some 40 }]).progress = 40 ∧
    (applyDeliveries submittedState
        [Delivery.ws { type := "progress", stage := some "TRANSCRIBING",
                       progress := some 40 },
         Delivery.ws { type := "progress", stage := some "INGESTING",
                       progress := some 10 }]).progress = 10 ∧
    (10 : Int) < 40 := by
  refine ⟨rfl, rfl, by decide⟩

/-- **C4** (amended). The displayed percent is last-write-wins: each
percent-carrying delivery (`progress`, pushed with `|| 0` defaulting;
`complete`, which writes 100; a poll response) sets `progress` to exactly the
value it carries, regardless of the previous state; consequently the percent is
non-decreasing precisely when successive deliveries carry non-decreasing
percents, and an out-of-order delivery carrying a smaller percent does decrease
the display. -/
theorem c4_percent_follows_last_delivery (s : HookState) (d1 d2 : Delivery)
    (p1 p2 : Int) (h1 : carriedPercent d1 = some p1)
    (h2 : carriedPercent d2 = some p2) :
    (applyDeliveries s [d1]).progress = p1 ∧
    (applyDeliveries s [d1, d2]).progress = p2 ∧
    (p1 ≤ p2 →
      (applyDeliveries s [d1]).progress ≤ (applyDeliveries s [d1, d2]).progress) := by
  have e1 : applyDeliveries s [d1] = applyDelivery s d1 := rfl
  have e2 : applyDeliveries s [d1, d2] =
      applyDelivery (applyDelivery s d1) d2 := rfl
  rw [e1, e2, applyDelivery_progress s d1 p1 h1,
      applyDelivery_progress (applyDelivery s d1) d2 p2 h2]
  exact ⟨rfl, rfl, id⟩

/-- Witness for C4: a 10-percent then 40-percent push sequence leaves the
display at 40. -/
theorem c4_witness :
    (applyDeliveries initialState
        [Delivery.ws { type := "progress", stage := some "INGESTING",
                       progress := some 10 },
         Delivery.ws { type := "progress", stage := some "TRANSCRIBING",
                       progress := some 40 }]).progress = 40 :=
  (c4_percent_follows_last_delivery initialState
      (Delivery.ws { type := "progress", stage := some "INGESTING",
                     progress := some 10 })
      (Delivery.ws { type := "progress", stage := some "TRANSCRIBING",
                     progress := some 40 })
      10 40 (by decide) (by decide)).2.1

/-- **C2** (counterexample). The claim says the artifact fetch is triggered
exactly once per job, a later redundant terminal delivery from the other
channel not triggering a second fetch.  But after a pushed `complete` (which
does not stop the polling interval), the next poll tick sees the terminal
status and issues `getVideoIdeas` again: two artifact fetches for one job. -/
theorem c2_counterexample :
    (applyDeliveries submittedState
        [Delivery.ws { type := "complete", message := some "done" },
         Delivery.poll { video_id := "v1", status := "complete", progress := 100,
                         current_stage := "COMPLETE", message := "done",
                         estimated_completion := none }]).ideasFetchCount = 2 := by
  rfl

/-- **C2** (amended). A pushed `complete` for a job with a known id forces
status `complete` and percent 100 and issues the artifact fetch, leaving both
channels untouched (in particular the polling interval keeps running); a polled
`complete` writes the polled percent verbatim and issues the artifact fetch
again.  The fetch is triggered once per terminal delivery, not once per job: a
redundant terminal delivery from the other channel does trigger a second
fetch. -/
theorem c2_terminal_delivery_semantics (s : HookState) (msg : Option String)
    (r : StatusResponse) (hv : s.videoId.isSome = true)
    (hr : r.status = "complete") :
    (handleWebSocketMessage s { type := "complete", message := msg }).status
        = some "complete" ∧
    (handleWebSocketMessage s { type := "complete", message := msg }).progress
        = 100 ∧
    (handleWebSocketMessage s { type := "complete", message := msg }).ideasFetchCount
        = s.ideasFetchCount + 1 ∧
    (handleWebSocketMessage s { type := "complete", message := msg }).pollingActive
        = s.pollingActive ∧
    (handleWebSocketMessage s { type := "complete", message := msg }).wsOpen
        = s.wsOpen ∧
    (pollStatusOk s r).ideasFetchCount = s.ideasFetchCount + 1 ∧
    (pollStatusOk s r).progress = r.progress ∧
    (pollStatusOk (handleWebSocketMessage s { type := "complete", message := msg })
        r).ideasFetchCount = s.ideasFetchCount + 2 := by
  simp only [handleWebSocketMessage, pollStatusOk]
  split_ifs <;> simp_all

/-- Witness for C2 at the concrete post-submission state: a pushed `complete`
followed by a redundant polled `complete`. -/
theorem c2_witness :
    (pollStatusOk
        (handleWebSocketMessage submittedState
          { type := "complete", message := some "done" })
        { video_id := "v1", status := "complete", progress := 100,
          current_stage := "COMPLETE", message := "done",
          estimated_completion := none }).ideasFetchCount
      = submittedState.ideasFetchCount + 2 :=
  (c2_terminal_delivery_semantics submittedState (some "done")
      { video_id := "v1", status := "complete", progress := 100,
        current_stage := "COMPLETE", message := "done",
        estimated_completion := none }
      (by decide) rfl).2.2.2.2.2.2.2

/-- **C3** (counterexample). The claim says that after an explicit `error`
event both channels are torn down.  But from a freshly submitted job (WebSocket
open, polling running), a pushed `error` forces status `failed` yet leaves the
WebSocket open and the polling interval running. -/
theorem c3_counterexample :
    (applyDeliveries submittedState
        [Delivery.ws { type := "error", message := some "boom" }]).status
        = some "failed" ∧
    (applyDeliveries submittedState
        [Delivery.ws { type := "error", message := some "boom" }]).wsOpen
        = true ∧
    (applyDeliveries submittedState
        [Delivery.ws { type := "error", message := some "boom" }]).pollingActive
        = true := by
  refine ⟨rfl, rfl, rfl⟩

/-- **C3** (amended). After a pushed `error` event, status is forced `failed`
and an error message is recorded, but neither channel is torn down: the
WebSocket stays as it was and the polling interval keeps running.  After a
polled FAILED status, the polling interval is cleared but the WebSocket is not
closed.  Full teardown of both channels happens only through reset() or view
unmount, not from the job reaching a terminal state. -/
theorem c3_job_fatal_channels_remain (s : HookState) (msg : Option String)
    (r : StatusResponse) (hr : r.status = "failed") :
    (handleWebSocketMessage s { type := "error", message := msg }).status
        = some "failed" ∧
    (handleWebSocketMessage s { type := "error", message := msg }).error.isSome
        = true ∧
    (handleWebSocketMessage s { type := "error", message := msg }).wsOpen
        = s.wsOpen ∧
    (handleWebSocketMessage s { type := "error", message := msg }).pollingActive
        = s.pollingActive ∧
    (pollStatusOk s r).status = some "failed" ∧
    (pollStatusOk s r).error = some "Processing failed" ∧
    (pollStatusOk s r).pollingActive = false ∧
    (pollStatusOk s r).wsOpen = s.wsOpen := by
  simp only [handleWebSocketMessage, pollStatusOk]
  split_ifs <;> simp_all

/-- Witness for C3 at the concrete post-submission state. -/
theorem c3_witness :
    (handleWebSocketMessage submittedState
        { type := "error", message := some "boom" }).wsOpen
      = submittedState.wsOpen ∧
    (pollStatusOk submittedState
        { video_id := "v1", status := "failed", progress := 50,
          current_stage := "GROUPING", message := "boom",
          estimated_completion := none }).pollingActive = false :=
  ⟨(c3_job_fatal_channels_remain submittedState (some "boom")
      { video_id := "v1", status := "failed", progress := 50,
        current_stage := "GROUPING", message := "boom",
        estimated_completion := none } rfl).2.2.1,
   (c3_job_fatal_channels_remain submittedState (some "boom")
      { video_id := "v1", status := "failed", progress := 50,
        current_stage := "GROUPING", message := "boom",
        estimated_completion := none } rfl).2.2.2.2.2.2.1⟩

/-- **C5** (confirmed). On every mount-time load of a persisted record, the
record is validated before use: a record whose stage is terminal (the canonical
uppercase tokens COMPLETE/FAILED, which are the only terminal tokens the
write-through effect can leave in storage), whose scope differs from the
current scope, or whose age exceeds 24 hours is deleted from storage and yields
no resumption candidate; exactly otherwise it is kept and used as the
resumption candidate. -/
theorem c5_mount_load_validation (d : PersistedState) (pid : Option String)
    (now : Int) :
    ((mountLoad (some d) pid now).2 = some d ↔
      ¬(d.status = "COMPLETE" ∨ d.status = "FAILED" ∨ d.projectId ≠ pid ∨
        now - d.timestamp > 24 * 60 * 60 * 1000)) ∧
    ((d.status = "COMPLETE" ∨ d.status = "FAILED" ∨ d.projectId ≠ pid ∨
        now - d.timestamp > 24 * 60 * 60 * 1000) →
      mountLoad (some d) pid now = (none, none)) := by
  simp only [mountLoad, clearStorageIfNeeded, restoreStateValidate]
  split_ifs <;> simp_all
  all_goals try (split_ifs <;> simp_all <;> omega)
  all_goals tauto

/-- Witness for C5: a fresh, scope-matching, non-terminal record is used as the
resumption candidate; an over-24-hour-old record is dropped. -/
theorem c5_witness :
    (mountLoad
        (some { videoId := "v1", videoUrl := "u", status := "TRANSCRIBING",
                progress := 40, currentStage := "TRANSCRIBING",
                projectId := some "p", timestamp := 1000 })
        (some "p") 2000).2
      = some { videoId := "v1", videoUrl := "u", status := "TRANSCRIBING",
               progress := 40, currentStage := "TRANSCRIBING",
               projectId := some "p", timestamp := 1000 } ∧
    mountLoad
        (some { videoId := "v1", videoUrl := "u", status := "TRANSCRIBING",
                progress := 40, currentStage := "TRANSCRIBING",
                projectId := some "p", timestamp := 0 })
        (some "p") 90000000 = (none, none) :=
  ⟨(c5_mount_load_validation
      { videoId := "v1", videoUrl := "u", status := "TRANSCRIBING",
        progress := 40, currentStage := "TRANSCRIBING",
        projectId := some "p", timestamp := 1000 } (some "p") 2000).1.mpr
      (by decide),
   (c5_mount_load_validation
      { videoId := "v1", videoUrl := "u", status := "TRANSCRIBING",
        progress := 40, currentStage := "TRANSCRIBING",
        projectId := some "p", timestamp := 0 } (some "p") 90000000).2
      (by decide)⟩

/-- **C6** (confirmed). reset() closes the WebSocket, clears the polling
interval, removes the persisted record for the current scope, and returns every
exposed state field (videoId, videoUrl, stream url, duration, title, status,
progress, currentStage, message, ideas, error) to its initial empty default;
and it is idempotent: a second immediate reset changes nothing. -/
theorem c6_reset_complete_and_idempotent (s : HookState) :
    (reset s).videoId = none ∧ (reset s).videoUrl = none ∧
    (reset s).videoStreamUrl = none ∧ (reset s).videoDuration = none ∧
    (reset s).videoTitle = none ∧ (reset s).status = none ∧
    (reset s).progress = 0 ∧ (reset s).currentStage = none ∧
    (reset s).message = none ∧ (reset s).ideas = [] ∧
    (reset s).error = none ∧ (reset s).wsOpen = false ∧
    (reset s).pollingActive = false ∧ (reset s).storage = none ∧
    reset (reset s) = reset s := by
  simp [reset]

/-- **C7** (confirmed). When the create-job request itself fails, the state
ends with status `failed` (the stage FAILED) and a populated error field, and
neither channel was ever opened for that submission: with no channel live
beforehand, the WebSocket is still unconnected and the polling interval still
unset afterwards. -/
theorem c7_submission_failure_no_channels (s : HookState) (url mode e : String)
    (wsOk : Bool) (hws : s.wsOpen = false) (hpoll : s.pollingActive = false) :
    (submitVideo s url mode (.error e) wsOk).status = some "failed" ∧
    (submitVideo s url mode (.error e) wsOk).error.isSome = true ∧
    (submitVideo s url mode (.error e) wsOk).wsOpen = false ∧
    (submitVideo s url mode (.error e) wsOk).pollingActive = false := by
  simp only [submitVideo, jsOr]
  split_ifs <;> simp_all

/-- Witness for C7: a failing submission from the initial state. -/
theorem c7_witness :
    (submitVideo initialState "https://video/x" "groq"
        (.error "network down") false).status = some "failed" ∧
    (submitVideo initialState "https://video/x" "groq"
        (.error "network down") false).wsOpen = false ∧
    (submitVideo initialState "https://video/x" "groq"
        (.error "network down") false).pollingActive = false :=
  ⟨(c7_submission_failure_no_channels initialState "https://video/x" "groq"
      "network down" false rfl rfl).1,
   (c7_submission_failure_no_channels initialState "https://video/x" "groq"
      "network down" false rfl rfl).2.2.1,
   (c7_submission_failure_no_channels initialState "https://video/x" "groq"
      "network down" false rfl rfl).2.2.2⟩

/-- Helper: feeding frames through the listener from any accumulator delivers
exactly the decodable frames, in order, and never touches the connection
flag. -/
theorem foldl_onMessageStep (decode : String → Option WsMsg) :
    ∀ (frames : List String) (acc : List WsMsg) (b : Bool),
      frames.foldl (onMessageStep decode) (acc, b) =
        (acc ++ frames.filterMap decode, b) := by
  intro frames
  induction frames with
  | nil => intro acc b; simp
  | cons f fs ih =>
      intro acc b
      cases hd : decode f with
      | none =>
          simp [List.foldl_cons, onMessageStep, hd, ih, List.filterMap_cons]
      | some m =>
          simp [List.foldl_cons, onMessageStep, hd, ih, List.filterMap_cons]

/-- **C8** (confirmed). A pushed frame whose payload fails to decode is dropped
in isolation: the handler is invoked on no payload for it, every well-formed
frame before and after it is still delivered to the handler in order, and the
connection is still open at the end — the decode failure never terminates the
WebSocket. -/
theorem c8_decode_failure_isolated (decode : String → Option WsMsg)
    (pre : List String) (bad : String) (post : List String)
    (h : decode bad = none) :
    processFrames decode (pre ++ bad :: post) =
      ((pre ++ post).filterMap decode, true) := by
  have e := foldl_onMessageStep decode (pre ++ bad :: post) [] true
  simp only [processFrames, e, List.nil_append]
  simp [h, List.filterMap_append, List.filterMap_cons]

/-- Witness for C8: a mixed concrete sequence good/bad/good delivers the two
good frames and leaves the connection open. -/
theorem c8_witness :
    processFrames sampleDecode (["good"] ++ "bad" :: ["good"]) =
      ((["good"] ++ ["good"]).filterMap sampleDecode, true) :=
  c8_decode_failure_isolated sampleDecode ["good"] "bad" ["good"] rfl

/-- **C9** (confirmed). Terminal-state detection is case-sensitive and
inconsistent across paths: isComplete holds exactly on the lowercase
`complete`, isProcessing exactly on a non-null status different from the
lowercase `complete` and `failed`; hence a backend-delivered uppercase
`COMPLETE` (the token compared by the mount-time project-load and
storage-clear paths) is reported as still processing, not complete, and the
write-through effect persists it as a (non-terminal) record instead of
clearing storage. -/
theorem c9_case_sensitive_terminal_detection :
    (∀ st : Option String, isComplete st = true ↔ st = some "complete") ∧
    (∀ st : Option String, isProcessing st = true ↔
      st ≠ none ∧ st ≠ some "complete" ∧ st ≠ some "failed") ∧
    isProcessing (some "COMPLETE") = true ∧
    isComplete (some "COMPLETE") = false ∧
    (∀ (vid : String), vid ≠ "" →
      ∀ (vurl : Option String) (prog : Int) (cs pid : Option String)
        (now : Int) (stor : Option PersistedState),
        persistEffect (some vid) vurl (some "COMPLETE") prog cs pid now stor =
          some { videoId := vid, videoUrl := vurl.getD "",
                 status := "COMPLETE", progress := prog,
                 currentStage := cs.getD "", projectId := pid,
                 timestamp := now }) := by
  refine ⟨?_, ?_, by decide, by decide, ?_⟩
  · intro st; cases st <;> simp [isComplete]
  · intro st; cases st <;> simp [isProcessing]
  · intro vid hvid vurl prog cs pid now stor
    simp [persistEffect, jsTruthy, hvid]

/-- Witness for C9: a concrete uppercase-terminal status is persisted as a
live record and reported as processing. -/
theorem c9_witness :
    isProcessing (some "COMPLETE") = true ∧
    persistEffect (some "v1") (some "u") (some "COMPLETE") 100
        (some "COMPLETE") (some "p") 5000 none =
      some { videoId := "v1", videoUrl := "u", status := "COMPLETE",
             progress := 100, currentStage := "COMPLETE",
             projectId := some "p", timestamp := 5000 } :=
  ⟨c9_case_sensitive_terminal_detection.2.2.1,
   c9_case_sensitive_terminal_detection.2.2.2.2 "v1" (by decide)
     (some "u") 100 (some "COMPLETE") (some "p") 5000 none⟩

/-- **C10** (confirmed). A pushed event whose type is none of `progress`,
`video_ready`, `stage_complete`, `complete`, `error` leaves the whole hook
state unchanged — every synchronized field, both channel flags, storage and
the artifact-request counters — because the handler's dispatch has no default
branch. -/
theorem c10_unknown_event_is_noop (s : HookState) (m : WsMsg)
    (h1 : m.type ≠ "progress") (h2 : m.type ≠ "video_ready")
    (h3 : m.type ≠ "stage_complete") (h4 : m.type ≠ "complete")
    (h5 : m.type ≠ "error") :
    handleWebSocketMessage s m = s := by
  simp [handleWebSocketMessage, h1, h2, h3, h4, h5]

/-- Witness for C10: an unknown event type on the concrete post-submission
state changes nothing. -/
theorem c10_witness :
    handleWebSocketMessage submittedState { type := "ping" } = submittedState :=
  c10_unknown_event_is_noop submittedState { type := "ping" }
    (by decide) (by decide) (by decide) (by decide) (by decide)

end GistAI
